import Mathlib

/-!
Shallow embedding of the Smart Quiz application: an Express backend
(`server.js`: quiz generation proxy, score persistence in a JSON file)
and a React client (`App.jsx`: quiz session state machine, local scoring).

Conventions of the embedding:
* JavaScript values appearing in JSON request bodies and in answer slots
  are modelled by `JsVal` (undefined, null, number, string, boolean).
* The JSON database object (identity -> list of score records) is an
  association list `Db` with JS-object semantics: lookup finds the first
  matching key, assignment replaces in place or appends a fresh key.
* Network and filesystem effects are passed in explicitly: the provider
  response is an argument, the backing file contents are an argument.
-/

set_option autoImplicit false

namespace SmartQuiz

/-- JavaScript values as they occur in JSON bodies and React state slots. -/
inductive JsVal where
  | undefined
  | null
  | num (n : Int)
  | str (s : String)
  | bool (b : Bool)
deriving DecidableEq, Repr

/-- JS truthiness for the values modelled by `JsVal`
(`undefined`, `null`, `0`, `""`, `false` are falsy). -/
def JsVal.truthy : JsVal → Bool
  | .undefined => false
  | .null => false
  | .num n => n != 0
  | .str s => s != ""
  | .bool b => b

/-- JS coercion of a value to an object property key
(as in `db[username]` when `username` is not a string). -/
def JsVal.toKeyString : JsVal → String
  | .undefined => "undefined"
  | .null => "null"
  | .num n => toString n
  | .str s => s
  | .bool b => toString b

/-- A question object as demanded from the provider by the system prompt:
`question`, `options`, `correctIndex`, `explanation`.  The code never
validates these fields, so `options` and `correctIndex` are unconstrained. -/
structure Question where
  question : String
  options : List String
  correctIndex : Int
  explanation : String
deriving DecidableEq, Repr

/-- A score record as stored by `POST /api/save-score`:
`{ topic, score, total, timestamp }`, each field taken verbatim from the
request body (hence any JS value, including `undefined` for absent fields). -/
structure Attempt where
  topic : JsVal
  score : JsVal
  total : JsVal
  timestamp : JsVal
deriving DecidableEq, Repr

/-- The JSON database object of `db.json`: identities mapped to score lists. -/
abbrev Db := List (String × List Attempt)

/-- Object property read `db[u]` (first entry with the key). -/
def dbGet : Db → String → Option (List Attempt)
  | [], _ => none
  | (k, v) :: rest, u => if k == u then some v else dbGet rest u

/-- Object property write `db[u] = v`: overwrite an existing key in place,
otherwise add the key at the end. -/
def dbSet : Db → String → List Attempt → Db
  | [], u, v => [(u, v)]
  | (k, w) :: rest, u, v =>
      if k == u then (u, v) :: dbSet rest u v else (k, w) :: dbSet rest u v

/-- `readDb` of `server.js`: `file = none` models a missing `db.json`
(`fs.existsSync` false), `parse` models `JSON.parse` (`none` = throws).
A missing file, empty contents or a parse failure all yield `{}`. -/
def readDb (file : Option String) (parse : String → Option Db) : Db :=
  match file with
  | none => []
  | some data => if data == "" then [] else (parse data).getD []

/-- An HTTP error response `res.status(s).json({ error: m })`. -/
structure ErrResp where
  status : Nat
  error : String
deriving DecidableEq, Repr

/-- Result of `GET /api/get-scores`. -/
inductive GetScoresResult where
  | ok (scores : List Attempt)
  | err (e : ErrResp)
deriving DecidableEq, Repr

/-- `GET /api/get-scores?username=...` of `server.js`.  The query parameter is
a string or absent; `!username` holds for an absent or empty value. -/
def getScores (db : Db) (username : Option String) : GetScoresResult :=
  match username with
  | none => .err ⟨400, "Username is required."⟩
  | some u =>
      if u == "" then .err ⟨400, "Username is required."⟩
      else .ok ((dbGet db u).getD [])

/-- Body of `POST /api/save-score`: the five destructured fields, each an
arbitrary JSON value. -/
structure ScoreBody where
  username : JsVal
  topic : JsVal
  score : JsVal
  total : JsVal
  timestamp : JsVal
deriving DecidableEq, Repr

/-- Result of `POST /api/save-score`: on success the updated database and
the 201 message, otherwise the 400 error response. -/
inductive SaveScoreResult where
  | ok (db : Db) (message : String)
  | err (e : ErrResp)
deriving DecidableEq, Repr

/-- `POST /api/save-score` of `server.js`: rejects a falsy `username` or
`topic` with 400, otherwise pushes `{ topic, score, total, timestamp }`
onto the (possibly fresh) list at key `username` and writes the db back. -/
def saveScore (db : Db) (b : ScoreBody) : SaveScoreResult :=
  if !b.username.truthy || !b.topic.truthy then
    .err ⟨400, "Username and score data are required."⟩
  else
    let key := b.username.toKeyString
    let prev := (dbGet db key).getD []
    .ok (dbSet db key (prev ++ [⟨b.topic, b.score, b.total, b.timestamp⟩]))
       "Score saved successfully."

/-- Does the character list `hay` start with `pat`? -/
def listStarts : List Char → List Char → Bool
  | _, [] => true
  | [], _ :: _ => false
  | a :: hs, b :: ps => a == b && listStarts hs ps

/-- Does `pat` occur as a contiguous run inside `hay`
(JS `String.prototype.includes` on the underlying characters)? -/
def listHasRun : List Char → List Char → Bool
  | [], ps => ps.isEmpty
  | h :: hs, ps => listStarts (h :: hs) ps || listHasRun hs ps

/-- The API-key guard of `POST /api/generate-quiz`:
`!apiKey || apiKey.includes(...)` — the key is absent, empty, or still
contains the placeholder text `paste_your`. -/
def keyInvalid (apiKey : Option String) : Bool :=
  match apiKey with
  | none => true
  | some k => k == "" || listHasRun k.toList "paste_your".toList

/-- The parsed JSON body the generate endpoint forwards with `res.json`:
either an object (whose `questions` field, when present, is an array of
question objects) or a bare top-level array.  Other JSON shapes (e.g. a
`questions` field that is not an array) do not arise in the claims. -/
inductive JsonBody where
  | obj (questions : Option (List Question))
  | arr (qs : List Question)
deriving DecidableEq, Repr

/-- Result of `POST /api/generate-quiz`. -/
inductive GenerateResult where
  | ok (body : JsonBody)
  | err (e : ErrResp)
deriving DecidableEq, Repr

/-- The 500 message for a missing/invalid API key. -/
def configErrorMsg : String := "Server Error: API Key is missing or invalid in .env file."

/-- The 500 message when the provider call or `JSON.parse` fails. -/
def genErrorMsg : String := "Failed to generate quiz from AI."

/-- `POST /api/generate-quiz` of `server.js`.  `provider` stands for the
outcome of the awaited provider call combined with `JSON.parse` of the
returned text: `none` lands in the catch block, `some body` is the parsed
quiz JSON, which is forwarded verbatim — the server validates nothing
about its contents.  The key guard runs before the request is built. -/
def generateQuizServer (apiKey : Option String) (provider : Option JsonBody) :
    GenerateResult :=
  if keyInvalid apiKey then .err ⟨500, configErrorMsg⟩
  else
    match provider with
    | none => .err ⟨500, genErrorMsg⟩
    | some body => .ok body

/-- The client's extraction in `handleGenerateQuiz`:
`const questions = response.data.questions || response.data;`
`if (questions && questions.length > 0) ...`.
An object's missing `questions` falls back to the object itself, whose
`.length` is `undefined`, so it is rejected; any non-empty array is
accepted with no per-question validation. -/
def extractQuestions : JsonBody → Option (List Question)
  | .obj (some qs) => if qs.length > 0 then some qs else none
  | .obj none => none
  | .arr qs => if qs.length > 0 then some qs else none

/-- One entry of the feedback array built in `handleSubmitQuiz`:
`{ ...q, userAnswer: q.options[userAnswers[i]], isCorrect }`.
`userAnswer` is `none` when the subscript is not a valid index. -/
structure FeedbackEntry where
  question : String
  options : List String
  correctIndex : Int
  explanation : String
  userAnswer : Option String
  isCorrect : Bool
deriving DecidableEq, Repr

/-- Array read `a[i]`: `undefined` beyond the end. -/
def jsGetAnswer (userAnswers : List JsVal) (i : Nat) : JsVal :=
  (userAnswers[i]?).getD .undefined

/-- `q.correctIndex === userAnswers[i]`: strict equality of a number with
an answer slot (never true for `null`/`undefined`/non-number slots). -/
def answerCorrect (q : Question) (a : JsVal) : Bool :=
  match a with
  | .num m => q.correctIndex == m
  | _ => false

/-- `q.options[a]` for an answer slot `a`: a string only when `a` is a
number that indexes into the options. -/
def optionAt (opts : List String) (a : JsVal) : Option String :=
  match a with
  | .num m => if m < 0 then none else opts[m.toNat]?
  | _ => none

/-- The feedback entry for question `q` given answer slot `a`. -/
def mkEntry (q : Question) (a : JsVal) : FeedbackEntry :=
  ⟨q.question, q.options, q.correctIndex, q.explanation,
   optionAt q.options a, answerCorrect q a⟩

/-- The scoring loop of `handleSubmitQuiz`, question `i` onwards: the
`quizData.map((q, i) => ...)` with its running `score++`, rendered as a
recursion returning the final count and the feedback array. -/
def scoreFeedbackAux (userAnswers : List JsVal) :
    List Question → Nat → Nat × List FeedbackEntry
  | [], _ => (0, [])
  | q :: rest, i =>
      let a := jsGetAnswer userAnswers i
      let tail := scoreFeedbackAux userAnswers rest (i + 1)
      ((if answerCorrect q a then 1 else 0) + tail.1, mkEntry q a :: tail.2)

/-- Local scoring of `handleSubmitQuiz`: count of correct answers and the
per-question feedback array. -/
def scoreFeedback (quizData : List Question) (userAnswers : List JsVal) :
    Nat × List FeedbackEntry :=
  scoreFeedbackAux userAnswers quizData 0

/-- `results` state: `{ score, total: quizData.length, feedback }`. -/
structure ScoreResult where
  score : Nat
  total : Nat
  feedback : List FeedbackEntry
deriving DecidableEq, Repr

/-- The React component state of `App.jsx` relevant to the session
(login, topic, quiz, answers, results, error banner, loading flag). -/
structure ClientState where
  currentUser : Option String
  topic : String
  quizData : Option (List Question)
  userAnswers : Option (List JsVal)
  results : Option ScoreResult
  error : String
  isLoading : Bool
deriving DecidableEq, Repr

/-- Client state plus the server-side database (the Ledger). -/
structure World where
  client : ClientState
  db : Db
deriving DecidableEq, Repr

/-- `currentUser` as it is serialised into the save-score body
(`null` when nobody is logged in). -/
def userVal : Option String → JsVal
  | none => .null
  | some u => .str u

/-- JS array assignment `a[i] = v` for a natural index: in bounds it
overwrites the slot, past the end it extends the array, filling the gap
with holes (`undefined`). -/
def jsArraySet (l : List JsVal) (i : Nat) (v : JsVal) : List JsVal :=
  if i < l.length then l.set i v
  else l ++ List.replicate (i - l.length) JsVal.undefined ++ [v]

/-- `handleAnswerSelect(questionIndex, optionIndex)` of `App.jsx`: copies
`userAnswers`, assigns `newAnswers[questionIndex] = optionIndex` with no
bounds check, and stores the result.  With `userAnswers` still `null` the
JS handler would throw on the spread; that state is unreachable from the
UI and is modelled as a no-op. -/
def handleAnswerSelect (c : ClientState) (questionIndex optionIndex : Nat) :
    ClientState :=
  match c.userAnswers with
  | some ua =>
      { c with userAnswers := some (jsArraySet ua questionIndex (.num optionIndex)) }
  | none => c

/-- `handleSubmitQuiz` of `App.jsx` as a transition on client + database:
an unset (`null`) slot aborts with the error banner; otherwise the quiz is
scored locally, `results` is set, and the score is posted to
`/api/save-score` (a server-side rejection is only logged, leaving the
database unchanged).  With no quiz in flight the handler is unreachable
from the UI and modelled as a no-op. -/
def handleSubmitQuiz (w : World) (now : String) : World :=
  match w.client.quizData, w.client.userAnswers with
  | some quizData, some userAnswers =>
      if userAnswers.any (· == JsVal.null) then
        { w with client := { w.client with error := "Please answer all questions." } }
      else
        let sf := scoreFeedback quizData userAnswers
        let finalResults : ScoreResult := ⟨sf.1, quizData.length, sf.2⟩
        let body : ScoreBody :=
          ⟨userVal w.client.currentUser, .str w.client.topic,
           .num sf.1, .num quizData.length, .str now⟩
        let db' :=
          match saveScore w.db body with
          | .ok d _ => d
          | .err _ => w.db
        ⟨{ w.client with results := some finalResults, isLoading := false }, db'⟩
  | _, _ => w

/-! ### Helper lemmas about the database object -/

theorem dbGet_dbSet_self (db : Db) (k : String) (v : List Attempt) :
    dbGet (dbSet db k v) k = some v := by
  induction db with
  | nil => simp [dbGet, dbSet]
  | cons p rest ih =>
      rcases p with ⟨k0, w⟩
      by_cases h : k0 = k
      · simp [dbSet, dbGet, h]
      · simp [dbSet, dbGet, h, ih]

theorem dbGet_dbSet_ne (db : Db) (k k' : String) (v : List Attempt)
    (h : k' ≠ k) : dbGet (dbSet db k v) k' = dbGet db k' := by
  have h2 : k ≠ k' := Ne.symm h
  induction db with
  | nil => simp [dbGet, dbSet, h2]
  | cons p rest ih =>
      rcases p with ⟨k0, w⟩
      by_cases h0 : k0 = k
      · subst h0
        simp [dbSet, dbGet, h2, ih]
      · simp [dbSet, dbGet, h0, ih]

/-! ### Helper lemmas about the scoring loop -/

theorem answerCorrect_eq (q : Question) (a : JsVal) :
    answerCorrect q a = (a == JsVal.num q.correctIndex) := by
  cases a <;> simp [answerCorrect] <;> omega

theorem scoreFeedbackAux_shift (a : JsVal) (A : List JsVal)
    (Q : List Question) (i : Nat) :
    scoreFeedbackAux (a :: A) Q (i + 1) = scoreFeedbackAux A Q i := by
  induction Q generalizing i with
  | nil => rfl
  | cons q rest ih => simp [scoreFeedbackAux, jsGetAnswer, ih]

theorem scoreFeedback_correct (Q : List Question) (A : List JsVal)
    (hlen : A.length = Q.length) :
    (scoreFeedback Q A).1
      = ((Q.zip A).filter fun p => p.2 == JsVal.num p.1.correctIndex).length
    ∧ (scoreFeedback Q A).2.map (fun f => f.isCorrect)
      = (Q.zip A).map fun p => p.2 == JsVal.num p.1.correctIndex := by
  induction Q generalizing A with
  | nil =>
      have : A = [] := List.length_eq_zero.mp hlen
      subst this
      simp [scoreFeedback, scoreFeedbackAux]
  | cons q rest ih =>
      cases A with
      | nil => simp at hlen
      | cons a A' =>
          have hlen' : A'.length = rest.length := by
            simpa using hlen
          have hshift : scoreFeedbackAux (a :: A') rest 1 = scoreFeedbackAux A' rest 0 :=
            scoreFeedbackAux_shift a A' rest 0
          have hhead : jsGetAnswer (a :: A') 0 = a := by simp [jsGetAnswer]
          obtain ⟨ih1, ih2⟩ := ih A' hlen'
          have key : scoreFeedback (q :: rest) (a :: A')
              = ((if answerCorrect q a then 1 else 0) + (scoreFeedback rest A').1,
                 mkEntry q a :: (scoreFeedback rest A').2) := by
            show scoreFeedbackAux (a :: A') (q :: rest) 0 = _
            simp [scoreFeedbackAux, hshift, hhead, scoreFeedback]
          constructor
          · rw [key, List.zip_cons_cons, List.filter_cons, ih1, answerCorrect_eq]
            rcases hb : (a == JsVal.num q.correctIndex) with _ | _ <;>
              simp [hb] <;> omega
          · rw [key, List.zip_cons_cons, List.map_cons, List.map_cons, ih2]
            simp [mkEntry, answerCorrect_eq]

/-! ### Claims about the Score Ledger -/

/-- Claim C4: for every non-empty identity and every attempt with a
non-empty topic, `appendAttempt` (POST /api/save-score) followed by
`getHistory` (GET /api/get-scores) for the same identity returns a
non-empty sequence whose last element equals the appended attempt. -/
theorem claim4_append_then_history (db : Db) (u : String) (hu : u ≠ "")
    (a : Attempt) (s : String) (hs : s ≠ "") (hts : a.topic = .str s) :
    ∃ db' hist,
      saveScore db ⟨.str u, a.topic, a.score, a.total, a.timestamp⟩
        = .ok db' "Score saved successfully."
      ∧ getScores db' (some u) = .ok hist
      ∧ hist ≠ []
      ∧ hist.getLast? = some a := by
  have htru : (JsVal.str u).truthy = true := by
    simp [JsVal.truthy, hu]
  have htrt : a.topic.truthy = true := by
    rw [hts]; simp [JsVal.truthy, hs]
  refine ⟨dbSet db u ((dbGet db u).getD [] ++ [a]),
          (dbGet db u).getD [] ++ [a], ?_, ?_, by simp, List.getLast?_concat _⟩
  · simp [saveScore, htru, htrt, JsVal.toKeyString]
  · simp [getScores, hu, dbGet_dbSet_self]

/-- Claim C5: `getHistory` returns an empty sequence (never an error) for
every non-empty identity with no prior attempts, and fails with the 400
validation error exactly when the identity argument is empty. -/
theorem claim5_get_history (db : Db) (u : String) :
    (u = "" → getScores db (some u) = .err ⟨400, "Username is required."⟩)
    ∧ (u ≠ "" → dbGet db u = none → getScores db (some u) = .ok [])
    ∧ (u ≠ "" → ∃ hist, getScores db (some u) = .ok hist) := by
  refine ⟨fun h => by simp [getScores, h], fun h hn => by simp [getScores, h, hn],
          fun h => ⟨(dbGet db u).getD [], by simp [getScores, h]⟩⟩

/-- Witness for C5 at a concrete database and identities. -/
theorem claim5_get_history_witness :
    getScores [] (some "") = .err ⟨400, "Username is required."⟩
    ∧ getScores [] (some "John") = .ok [] :=
  ⟨(claim5_get_history [] "").1 rfl,
   (claim5_get_history [] "John").2.1 (by decide) rfl⟩

/-- Claim C9: appending an attempt for identity `u` leaves the history
returned for any other identity `v` unchanged. -/
theorem claim9_append_frame (db : Db) (u v : String) (hvu : v ≠ u)
    (hu : u ≠ "") (a : Attempt) (ht : a.topic.truthy = true) :
    ∃ db',
      saveScore db ⟨.str u, a.topic, a.score, a.total, a.timestamp⟩
        = .ok db' "Score saved successfully."
      ∧ getScores db' (some v) = getScores db (some v) := by
  have htru : (JsVal.str u).truthy = true := by
    simp [JsVal.truthy, hu]
  refine ⟨dbSet db u ((dbGet db u).getD [] ++ [a]), ?_, ?_⟩
  · simp [saveScore, htru, ht, JsVal.toKeyString]
  · by_cases hv : v = ""
    · simp [getScores, hv]
    · simp [getScores, hv, dbGet_dbSet_ne db u v _ hvu]

/-- Claim C10: `POST /api/save-score` validates only that the username and
the topic are non-empty; with those non-empty it succeeds and stores the
record verbatim, whatever the values (or absence, i.e. `undefined`) of the
score, total and timestamp fields. -/
theorem claim10_save_minimal_validation (db : Db) (u : String) (hu : u ≠ "")
    (s : String) (hs : s ≠ "") (sc tot ts : JsVal) :
    ∃ db' hist,
      saveScore db ⟨.str u, .str s, sc, tot, ts⟩
        = .ok db' "Score saved successfully."
      ∧ dbGet db' u = some hist
      ∧ hist.getLast? = some ⟨.str s, sc, tot, ts⟩ := by
  have htru : (JsVal.str u).truthy = true := by
    simp [JsVal.truthy, hu]
  have htrt : (JsVal.str s).truthy = true := by
    simp [JsVal.truthy, hs]
  refine ⟨dbSet db u ((dbGet db u).getD [] ++ [⟨.str s, sc, tot, ts⟩]),
          (dbGet db u).getD [] ++ [⟨.str s, sc, tot, ts⟩], ?_,
          dbGet_dbSet_self db u _, List.getLast?_concat _⟩
  simp [saveScore, htru, htrt, JsVal.toKeyString]

/-- Claim C8: a missing or unparsable backing store degrades to the empty
mapping, so `getHistory` yields an empty history rather than an error. -/
theorem claim8_read_degrades (parse : String → Option Db) (s : String)
    (hp : parse s = none) (u : String) (hu : u ≠ "") :
    readDb none parse = []
    ∧ readDb (some s) parse = []
    ∧ getScores (readDb (some s) parse) (some u) = .ok [] := by
  have hread : readDb (some s) parse = [] := by
    by_cases h : s = "" <;> simp [readDb, h, hp]
  exact ⟨rfl, hread, by simp [getScores, hu, hread, dbGet]⟩

/-- Witness for C4: appending to an empty ledger and reading it back. -/
theorem claim4_append_then_history_witness :
    ∃ db' hist,
      saveScore [] ⟨.str "John", .str "Space", .num 7, .num 10, .str "T"⟩
        = .ok db' "Score saved successfully."
      ∧ getScores db' (some "John") = .ok hist
      ∧ hist ≠ []
      ∧ hist.getLast? = some ⟨.str "Space", .num 7, .num 10, .str "T"⟩ :=
  claim4_append_then_history [] "John" (by decide)
    ⟨.str "Space", .num 7, .num 10, .str "T"⟩ "Space" (by decide) rfl

/-- Witness for C9: appending for John does not disturb Mary. -/
theorem claim9_append_frame_witness :
    ∃ db',
      saveScore [("Mary", [])]
          ⟨.str "John", .str "Space", .num 7, .num 10, .str "T"⟩
        = .ok db' "Score saved successfully."
      ∧ getScores db' (some "Mary") = getScores [("Mary", [])] (some "Mary") :=
  claim9_append_frame [("Mary", [])] "John" "Mary" (by decide) (by decide)
    ⟨.str "Space", .num 7, .num 10, .str "T"⟩ (by decide)

/-- Witness for C10: a record with an absent score, a mistyped total and an
absent timestamp is stored anyway. -/
theorem claim10_save_minimal_validation_witness :
    ∃ db' hist,
      saveScore [] ⟨.str "John", .str "Space", .undefined, .str "oops", .undefined⟩
        = .ok db' "Score saved successfully."
      ∧ dbGet db' "John" = some hist
      ∧ hist.getLast? = some ⟨.str "Space", .undefined, .str "oops", .undefined⟩ :=
  claim10_save_minimal_validation [] "John" (by decide) "Space" (by decide)
    .undefined (.str "oops") .undefined

/-- Witness for C8: an unparsable store and the identity John. -/
theorem claim8_read_degrades_witness :
    readDb none (fun _ => none) = []
    ∧ readDb (some "corrupt") (fun _ => none) = []
    ∧ getScores (readDb (some "corrupt") (fun _ => none)) (some "John")
        = .ok [] :=
  claim8_read_degrades (fun _ => none) "corrupt" rfl "John" (by decide)

/-! ### Claims about quiz generation -/

/-- Claim C6: with no valid provider credential the generate endpoint
fails with the configuration error, for every possible provider outcome —
in particular the result never depends on the provider call, which is
exactly the guard running before the request is made. -/
theorem claim6_config_before_network (apiKey : Option String)
    (h : keyInvalid apiKey = true) (provider : Option JsonBody) :
    generateQuizServer apiKey provider = .err ⟨500, configErrorMsg⟩ := by
  simp [generateQuizServer, h]

/-- Witness for C6: an absent key, with a provider response in hand. -/
theorem claim6_config_before_network_witness :
    generateQuizServer none (some (.obj (some []))) = .err ⟨500, configErrorMsg⟩ :=
  claim6_config_before_network none rfl (some (.obj (some [])))

/-- Counterexample to C2 as stated: a question with `correctIndex = 7`,
three options, in a one-question quiz, is forwarded by the server and
accepted into `quizData` by the client — no generation error occurs. -/
theorem claim2_counterexample :
    generateQuizServer (some "AIzaSyRealKey1234")
        (some (.obj (some [⟨"Q", ["a", "b", "c"], 7, "E"⟩])))
      = .ok (.obj (some [⟨"Q", ["a", "b", "c"], 7, "E"⟩]))
    ∧ extractQuestions (.obj (some [⟨"Q", ["a", "b", "c"], 7, "E"⟩]))
      = some [⟨"Q", ["a", "b", "c"], 7, "E"⟩]
    ∧ ¬(0 ≤ (7 : Int) ∧ (7 : Int) ≤ 3)
    ∧ (["a", "b", "c"] : List String).length ≠ 4
    ∧ ([⟨"Q", ["a", "b", "c"], 7, "E"⟩] : List Question).length ≠ 10 := by
  refine ⟨?_, rfl, by decide, by decide, by decide⟩
  decide

/-- Claim C2 amended: generation fails only when the provider call or the
JSON parse fails (server 500) or when the extracted questions value is not
a non-empty array (client rejection); any non-empty array of question
objects is accepted verbatim, with no validation of `correctIndex`,
options cardinality, or the question count. -/
theorem claim2_generation_unvalidated (qs : List Question) (hqs : qs ≠ [])
    (key : String) (hk : keyInvalid (some key) = false) :
    generateQuizServer (some key) (some (.obj (some qs))) = .ok (.obj (some qs))
    ∧ extractQuestions (.obj (some qs)) = some qs
    ∧ extractQuestions (.obj none) = none
    ∧ extractQuestions (.obj (some [])) = none
    ∧ generateQuizServer (some key) none = .err ⟨500, genErrorMsg⟩ := by
  refine ⟨by simp [generateQuizServer, hk], ?_, rfl, rfl,
          by simp [generateQuizServer, hk]⟩
  simp [extractQuestions, List.length_pos, hqs]

/-- Witness for the amended C2 at the malformed one-question quiz. -/
theorem claim2_generation_unvalidated_witness :
    generateQuizServer (some "k") (some (.obj (some [⟨"Q", ["a", "b", "c"], 7, "E"⟩])))
      = .ok (.obj (some [⟨"Q", ["a", "b", "c"], 7, "E"⟩]))
    ∧ extractQuestions (.obj (some [⟨"Q", ["a", "b", "c"], 7, "E"⟩]))
      = some [⟨"Q", ["a", "b", "c"], 7, "E"⟩]
    ∧ extractQuestions (.obj none) = none
    ∧ extractQuestions (.obj (some [])) = none
    ∧ generateQuizServer (some "k") none = .err ⟨500, genErrorMsg⟩ :=
  claim2_generation_unvalidated [⟨"Q", ["a", "b", "c"], 7, "E"⟩]
    (by decide) "k" (by decide)

/-! ### Claims about the quiz session -/

/-- Claim C1: submitting a fully answered quiz stores a result whose score
is the number of indices where the answer equals the question's
`correctIndex`, and whose per-question verdicts are exactly those
pointwise comparisons. -/
theorem claim1_submit_scoring (w : World) (now : String)
    (Q : List Question) (A : List JsVal)
    (hq : w.client.quizData = some Q) (ha : w.client.userAnswers = some A)
    (hlen : A.length = Q.length) (hset : ∀ a ∈ A, a ≠ JsVal.null) :
    ∃ r, (handleSubmitQuiz w now).client.results = some r
      ∧ r.score
          = ((Q.zip A).filter fun p => p.2 == JsVal.num p.1.correctIndex).length
      ∧ r.total = Q.length
      ∧ r.feedback.map (fun f => f.isCorrect)
          = (Q.zip A).map fun p => p.2 == JsVal.num p.1.correctIndex := by
  have hany : A.any (· == JsVal.null) = false := by
    simp only [List.any_eq_false]
    intro x hx
    simpa using hset x hx
  obtain ⟨h1, h2⟩ := scoreFeedback_correct Q A hlen
  refine ⟨⟨(scoreFeedback Q A).1, Q.length, (scoreFeedback Q A).2⟩, ?_, h1, rfl, h2⟩
  simp [handleSubmitQuiz, hq, ha, hany, scoreFeedback]

/-- Witness for C1: a two-question quiz answered with one hit and one miss. -/
theorem claim1_submit_scoring_witness :
    ∃ r, (handleSubmitQuiz
        ⟨⟨some "John", "Space",
          some [⟨"A", ["w", "x", "y", "z"], 1, "E1"⟩,
                ⟨"B", ["w", "x", "y", "z"], 2, "E2"⟩],
          some [JsVal.num 1, JsVal.num 0], none, "", false⟩, []⟩ "T").client.results
      = some r
    ∧ r.score
        = ((([⟨"A", ["w", "x", "y", "z"], 1, "E1"⟩,
              ⟨"B", ["w", "x", "y", "z"], 2, "E2"⟩] : List Question).zip
              [JsVal.num 1, JsVal.num 0]).filter
            fun p => p.2 == JsVal.num p.1.correctIndex).length
    ∧ r.total = 2
    ∧ r.feedback.map (fun f => f.isCorrect)
        = ((([⟨"A", ["w", "x", "y", "z"], 1, "E1"⟩,
              ⟨"B", ["w", "x", "y", "z"], 2, "E2"⟩] : List Question).zip
              [JsVal.num 1, JsVal.num 0]).map
            fun p => p.2 == JsVal.num p.1.correctIndex) :=
  claim1_submit_scoring
    ⟨⟨some "John", "Space",
      some [⟨"A", ["w", "x", "y", "z"], 1, "E1"⟩,
            ⟨"B", ["w", "x", "y", "z"], 2, "E2"⟩],
      some [JsVal.num 1, JsVal.num 0], none, "", false⟩, []⟩ "T"
    [⟨"A", ["w", "x", "y", "z"], 1, "E1"⟩, ⟨"B", ["w", "x", "y", "z"], 2, "E2"⟩]
    [JsVal.num 1, JsVal.num 0] rfl rfl rfl (by decide)

/-- Claim C3: submitting with an unset (null) answer slot only sets the
error banner: the session stays Active (quiz, answers and results are
untouched) and the Ledger is unchanged. -/
theorem claim3_incomplete_submit (w : World) (now : String)
    (Q : List Question) (A : List JsVal)
    (hq : w.client.quizData = some Q) (ha : w.client.userAnswers = some A)
    (hnull : JsVal.null ∈ A) :
    (handleSubmitQuiz w now).client.error = "Please answer all questions."
    ∧ (handleSubmitQuiz w now).db = w.db
    ∧ (handleSubmitQuiz w now).client.quizData = some Q
    ∧ (handleSubmitQuiz w now).client.userAnswers = some A
    ∧ (handleSubmitQuiz w now).client.results = w.client.results := by
  have hany : A.any (· == JsVal.null) = true := by
    simp only [List.any_eq_true]
    exact ⟨JsVal.null, hnull, by simp⟩
  have key : handleSubmitQuiz w now
      = ⟨{ w.client with error := "Please answer all questions." }, w.db⟩ := by
    simp [handleSubmitQuiz, hq, ha, hany]
  rw [key]
  exact ⟨rfl, rfl, by simp [hq], by simp [ha], rfl⟩

/-- Witness for C3: slot 0 unset on a two-question quiz, empty ledger. -/
theorem claim3_incomplete_submit_witness :
    (handleSubmitQuiz
        ⟨⟨some "John", "Space",
          some [⟨"A", ["w", "x", "y", "z"], 1, "E1"⟩,
                ⟨"B", ["w", "x", "y", "z"], 2, "E2"⟩],
          some [JsVal.null, JsVal.num 1], none, "", false⟩, []⟩ "T").client.error
      = "Please answer all questions."
    ∧ (handleSubmitQuiz
        ⟨⟨some "John", "Space",
          some [⟨"A", ["w", "x", "y", "z"], 1, "E1"⟩,
                ⟨"B", ["w", "x", "y", "z"], 2, "E2"⟩],
          some [JsVal.null, JsVal.num 1], none, "", false⟩, []⟩ "T").db = []
    ∧ (handleSubmitQuiz
        ⟨⟨some "John", "Space",
          some [⟨"A", ["w", "x", "y", "z"], 1, "E1"⟩,
                ⟨"B", ["w", "x", "y", "z"], 2, "E2"⟩],
          some [JsVal.null, JsVal.num 1], none, "", false⟩, []⟩ "T").client.quizData
      = some [⟨"A", ["w", "x", "y", "z"], 1, "E1"⟩,
              ⟨"B", ["w", "x", "y", "z"], 2, "E2"⟩]
    ∧ (handleSubmitQuiz
        ⟨⟨some "John", "Space",
          some [⟨"A", ["w", "x", "y", "z"], 1, "E1"⟩,
                ⟨"B", ["w", "x", "y", "z"], 2, "E2"⟩],
          some [JsVal.null, JsVal.num 1], none, "", false⟩, []⟩ "T").client.userAnswers
      = some [JsVal.null, JsVal.num 1]
    ∧ (handleSubmitQuiz
        ⟨⟨some "John", "Space",
          some [⟨"A", ["w", "x", "y", "z"], 1, "E1"⟩,
                ⟨"B", ["w", "x", "y", "z"], 2, "E2"⟩],
          some [JsVal.null, JsVal.num 1], none, "", false⟩, []⟩ "T").client.results
      = none :=
  claim3_incomplete_submit _ "T" _ _ rfl rfl (by decide)

/-- Counterexample to C7 as stated: on a one-question quiz, the
out-of-bounds call `selectAnswer(1, 0)` does not leave the answer vector
unchanged — it grows it to two slots. -/
theorem claim7_counterexample :
    (handleAnswerSelect
        ⟨some "J", "t", some [⟨"Q", ["a", "b", "c", "d"], 0, "E"⟩],
         some [JsVal.null], none, "", false⟩ 1 0).userAnswers
      = some [JsVal.null, JsVal.num 0]
    ∧ some [JsVal.null, JsVal.num 0] ≠ some [JsVal.null]
    ∧ ¬(1 < ([⟨"Q", ["a", "b", "c", "d"], 0, "E"⟩] : List Question).length) := by
  exact ⟨rfl, by decide, by decide⟩

/-- Claim C7 amended: `selectAnswer` performs no bounds check.  In-bounds
calls overwrite the chosen slot and leave every other slot unchanged;
out-of-bounds calls extend the vector to length `questionIndex + 1`,
filling the gap with holes, while still leaving the original slots
unchanged. -/
theorem claim7_select_answer (c : ClientState) (ua : List JsVal)
    (h : c.userAnswers = some ua) (qi oi : Nat) :
    (handleAnswerSelect c qi oi).userAnswers
      = some (jsArraySet ua qi (.num oi))
    ∧ (qi < ua.length →
        jsArraySet ua qi (.num oi) = ua.set qi (.num oi)
        ∧ (jsArraySet ua qi (.num oi))[qi]? = some (.num oi))
    ∧ (ua.length ≤ qi →
        jsArraySet ua qi (.num oi)
          = ua ++ List.replicate (qi - ua.length) JsVal.undefined ++ [.num oi]
        ∧ (jsArraySet ua qi (.num oi)).length = qi + 1)
    ∧ (∀ j, j < ua.length → j ≠ qi →
        (jsArraySet ua qi (.num oi))[j]? = ua[j]?) := by
  refine ⟨by simp [handleAnswerSelect, h], fun hlt => ⟨?_, ?_⟩,
          fun hge => ⟨?_, ?_⟩, ?_⟩
  · simp [jsArraySet, hlt]
  · simp [jsArraySet, hlt, List.getElem?_set_self]
  · simp [jsArraySet, Nat.not_lt.mpr hge]
  · simp only [jsArraySet, if_neg (Nat.not_lt.mpr hge), List.length_append,
      List.length_replicate, List.length_cons, List.length_nil]
    omega
  · intro j hj hne
    by_cases hlt : qi < ua.length
    · simp [jsArraySet, hlt, List.getElem?_set_ne (Ne.symm hne)]
    · have h1 : j < (ua ++ List.replicate (qi - ua.length) JsVal.undefined).length := by
        simp only [List.length_append, List.length_replicate]
        omega
      simp only [jsArraySet, if_neg hlt]
      rw [List.getElem?_append_left h1, List.getElem?_append_left hj]

/-- Witness for the amended C7 at a concrete in-bounds selection. -/
theorem claim7_select_answer_witness :
    (handleAnswerSelect
        ⟨some "J", "t", none, some [JsVal.null, JsVal.null], none, "", false⟩
        0 2).userAnswers
      = some (jsArraySet [JsVal.null, JsVal.null] 0 (.num 2)) :=
  (claim7_select_answer _ [JsVal.null, JsVal.null] rfl 0 2).1

end SmartQuiz
